import Mathlib

/-!
# Verification of the `lmk` crash-reporting facility

Shallow embedding of `src/lib.rs`: the `Report` data model, `Report::new`,
`Metadata`, and the panic hook installed by `init_crash_reporter`, together
with models of the external collaborators the code calls (OS temp dir,
environment variables, the ulid generator, the TOML serializer).

Machine integers that matter (line/column numbers, ulid timestamp/random
parts) are modelled as `Nat`; OS strings and paths are modelled as Lean
`String`s. Fallible operations return `Except`/`Option`; a `.expect(..)`
in the Rust source is modelled by returning `Option` from the enclosing
function (`none` = the expect panicked).
-/

/-- Information about the host application (mirrors `struct Metadata`). -/
structure Metadata where
  name : String
  version : String
  repository : String
deriving DecidableEq, Repr

/-- A crash report (mirrors `struct Report`).  `working_dir` is a `PathBuf`
in the source; paths are modelled as strings. -/
structure Report where
  captured_at : String
  package_name : String
  package_version : String
  binary_name : Option String
  working_dir : Option String
  operating_system : String
  panic_message : Option String
  panic_location : String
  backtrace : String
deriving DecidableEq, Repr

/-- The dynamic panic payload (`panic.payload()`): the source only recognizes
`&str` payloads via `downcast_ref::<&str>()`; every other payload shape
(e.g. `String`, structured values) is covered by `other`. -/
inductive Payload where
  | text (s : String)
  | other
deriving DecidableEq, Repr

/-- A panic source location (`std::panic::Location`). -/
structure Location where
  file : String
  line : Nat
  column : Nat
deriving DecidableEq, Repr

/-- The fault context handed to the hook (`&PanicInfo`).  `location()`
returns an `Option` in the Rust API. -/
structure PanicInfo where
  payload : Payload
  location : Option Location
deriving DecidableEq, Repr

/-- Compile-time constants of the binary: `std::env::consts::OS` and
`cfg!(not(debug_assertions))`.  Fixed once per build, independent of the
runtime environment. -/
structure Build where
  os : String
  is_release_mode : Bool
deriving DecidableEq, Repr

/-- The runtime environment read by `Report::new` and the hook body:
wall-clock capture time (already RFC 3339 formatted), process arguments,
current directory lookup result, the forced backtrace rendering, the OS
temp directory, and the time/randomness source consumed by the ulid
generator. -/
structure RunEnv where
  now_rfc3339 : String
  args : List String
  current_dir : Except String String
  backtrace : String
  temp_dir : String
  now_ms : Nat
  rand : Nat

/-- `format!("{}:{}:{}", loc.file(), loc.line(), loc.column())`. -/
def Location.render (loc : Location) : String :=
  loc.file ++ ":" ++ toString loc.line ++ ":" ++ toString loc.column

/-- `Report::new(metadata, panic)`.  Returns `none` exactly when the
`.expect("panic location should always be set")` would panic, i.e. when
`panic.location()` is `None`.  All other fallible sub-steps
(`std::env::args().next()`, `std::env::current_dir().ok()`, the payload
downcast) resolve to `Option` values. -/
def Report.new (metadata : Metadata) (panic : PanicInfo) (build : Build)
    (env : RunEnv) : Option Report :=
  let captured_at := env.now_rfc3339
  let binary_name := env.args.head?
  let working_dir := env.current_dir.toOption
  let os := build.os
  let panic_message :=
    match panic.payload with
    | .text s => some s
    | .other => none
  match panic.location with
  | none => none
  | some loc =>
      some { captured_at := captured_at
             package_name := metadata.name
             package_version := metadata.version
             binary_name := binary_name
             working_dir := working_dir
             operating_system := os
             panic_message := panic_message
             panic_location := loc.render
             backtrace := env.backtrace }

/-- Modelled from the spec: the Unique Id Generator (§4.3, §3) — the `ulid`
crate called at `ulid::Generator::new().generate()` is not part of this
repository.  An id is a 48-bit millisecond timestamp plus an 80-bit random
component.  Components are modelled as unbounded `Nat` (the crate errors on
overflow; the hook `.expect`s success). -/
structure Ulid where
  timestamp : Nat
  random : Nat
deriving DecidableEq, Repr

/-- `Ulid::nil()`: the zero id, the initial `previous` of a fresh generator. -/
def Ulid.nil : Ulid := ⟨0, 0⟩

/-- Modelled from the spec: §4.3/§3 "monotonically time-ordered with random
tie-break".  A generator remembers the previously issued id; when the clock
has advanced past it a fresh (timestamp, random) pair is issued, otherwise
the previous id is incremented. -/
def Generator.generate (previous : Ulid) (now rand : Nat) : Ulid :=
  if previous.timestamp < now then ⟨now, rand⟩
  else ⟨previous.timestamp, previous.random + 1⟩

/-- Strict order on ids: timestamp-major, random-minor. -/
def Ulid.lt (u v : Ulid) : Prop :=
  u.timestamp < v.timestamp ∨ (u.timestamp = v.timestamp ∧ u.random < v.random)

instance (u v : Ulid) : Decidable (Ulid.lt u v) :=
  inferInstanceAs (Decidable (u.timestamp < v.timestamp ∨
    (u.timestamp = v.timestamp ∧ u.random < v.random)))

instance : IsTrans Ulid Ulid.lt :=
  ⟨by intro a b c hab hbc; unfold Ulid.lt at *; omega⟩

/-- Crockford base32 alphabet used by ulid text rendering. -/
def crockfordDigits : List Char := "0123456789ABCDEFGHJKMNPQRSTVWXYZ".data

def crockfordChar (n : Nat) : Char := crockfordDigits.getD n '0'

/-- Fixed-width big-endian base32 rendering (width `w` digits). -/
def encodeFW : Nat → Nat → List Char
  | 0, _ => []
  | w + 1, n => crockfordChar (n / 32 ^ w) :: encodeFW w (n % 32 ^ w)

/-- `Ulid::to_string()`: 10 timestamp digits then 16 random digits. -/
def Ulid.toString (u : Ulid) : String :=
  String.mk (encodeFW 10 (u.timestamp % 2 ^ 48) ++ encodeFW 16 (u.random % 2 ^ 80))

/-- Escape of one character inside a TOML basic string. -/
def escapeTomlChar (c : Char) : String :=
  if c = '"' then "\\\"" else if c = '\\' then "\\\\"
  else if c = '\n' then "\\n" else if c = '\r' then "\\r"
  else if c = '\t' then "\\t" else String.singleton c

/-- A TOML basic string. -/
def tomlStr (s : String) : String :=
  "\"" ++ String.join (s.data.map escapeTomlChar) ++ "\""

/-- One `key = "value"` line. -/
def tomlLine (k v : String) : String := k ++ " = " ++ tomlStr v ++ "\n"

/-- A line for an optional field: absent fields are omitted. -/
def tomlOptLine (k : String) : Option String → String
  | none => ""
  | some v => tomlLine k v

/-- Modelled from the spec: the Report Serializer (§4.4) — the `toml` crate
called at `toml::to_string_pretty(&report)` is not part of this repository.
A deterministic document rendering of all `Report` fields in declaration
order, omitting absent optional fields; total, hence it never fails. -/
def toml_to_string_pretty (r : Report) : Except String String :=
  Except.ok
    (tomlLine "captured_at" r.captured_at ++
     tomlLine "package_name" r.package_name ++
     tomlLine "package_version" r.package_version ++
     tomlOptLine "binary_name" r.binary_name ++
     tomlOptLine "working_dir" r.working_dir ++
     tomlLine "operating_system" r.operating_system ++
     tomlOptLine "panic_message" r.panic_message ++
     tomlLine "panic_location" r.panic_location ++
     tomlLine "backtrace" r.backtrace)

/-- `PathBuf::join` for the relative, separator-free components used by the
hook (a package name, the fixed `"crash"` folder, a dot-free ulid file
name): appends with a path separator. -/
def joinPath (a b : String) : String := a ++ "/" ++ b

/-- `Path::with_extension` for a final component with no existing extension
(ulid ids are drawn from the dot-free Crockford alphabet): appends a dot
and the extension. -/
def withExtension (p ext : String) : String := p ++ "." ++ ext

/-- `"-".repeat(20)`. -/
def sepLine : String := String.mk (List.replicate 20 '-')

/-- `eprintln!("error: failed to save crash report to {}", path)`. -/
def failSaveMsg (path : String) : String :=
  "error: failed to save crash report to " ++ path

/-- `eprintln!("error: writing crash report directly to stderr")`. -/
def directMsg : String := "error: writing crash report directly to stderr"

/-- The success notice (the `indoc!` block), formatted with the package
name, the report path and the repository URL. -/
def successNotice (name path repository : String) : String :=
  name ++ " has crashed!\n\nA crash report has been saved to " ++ path ++
  ". To get support for this problem,\nplease raise an issue on GitHub at " ++
  repository ++
  "/issues and include the crash\nreport to help us better diagnose the problem."

/-- Lexicographic strict comparison of character lists (shorter-is-less on
a proper initial segment), used to state the "lexicographically
non-decreasing" property on id strings. -/
def lexLtB : List Char → List Char → Bool
  | [], [] => false
  | [], _ :: _ => true
  | _ :: _, [] => false
  | a :: as, b :: bs => if a < b then true else if b < a then false else lexLtB as bs

/-- Lexicographic strict order on strings. -/
def strLex (s t : String) : Prop := lexLtB s.data t.data = true

instance (s t : String) : Decidable (strLex s t) :=
  inferInstanceAs (Decidable (lexLtB s.data t.data = true))

/-- A filesystem operation attempted by the hook. -/
inductive FsOp where
  | createDirAll (path : String)
  | writeFile (path : String) (content : String)
deriving DecidableEq, Repr

/-- The filesystem's behaviour, as observed through the two calls the hook
makes: `fs::create_dir_all` and `fs::write`. -/
structure SysFs where
  create_dir_all : String → Except String Unit
  write : String → Except String Unit

/-- Observable outcome of one hook run: the filesystem operations attempted
(in order), the files actually created, and the stderr stream (one entry
per `eprintln!` call, holding that call's full formatted text). -/
structure HookOutput where
  ops : List FsOp
  written : List (String × String)
  stderr : List String
deriving DecidableEq, Repr

/-- The byte stream the stderr entries produce: each `eprintln!` writes its
text followed by a newline. -/
def streamText : List String → String
  | [] => ""
  | l :: ls => l ++ "\n" ++ streamText ls

/-- The four stderr entries of the fallback branch: the failed-path
message; the failure detail between separators; the direct-output
announcement; the serialized content between separators. -/
def fallbackStderr (path e content : String) : List String :=
  [failSaveMsg path,
   sepLine ++ "\n" ++ e ++ "\n" ++ sepLine,
   directMsg,
   sepLine ++ "\n" ++ content ++ "\n" ++ sepLine]

/-- `std::env::temp_dir().join(&report.package_name).join("crash")`. -/
def outputDir (package_name : String) (env : RunEnv) : String :=
  joinPath (joinPath env.temp_dir package_name) "crash"

/-- The id generated inside the hook: a fresh `ulid::Generator` per fault. -/
def reportId (env : RunEnv) : String :=
  (Generator.generate Ulid.nil env.now_ms env.rand).toString

/-- `output_dir.join(report_id).with_extension("toml")`. -/
def reportPath (package_name : String) (env : RunEnv) : String :=
  withExtension (joinPath (outputDir package_name env) (reportId env)) "toml"

/-- The body of the panic hook installed by `init_crash_reporter`, run on
one fault.  Returns `none` exactly when one of the hook's own `.expect`
calls would panic (absent panic location or serialization failure —
serialization is total in this model). -/
def runHook (metadata : Metadata) (panic : PanicInfo) (build : Build)
    (env : RunEnv) (fs : SysFs) : Option HookOutput :=
  match Report.new metadata panic build env with
  | none => none
  | some report =>
    match toml_to_string_pretty report with
    | .error _ => none
    | .ok content =>
      let output_dir := joinPath (joinPath env.temp_dir report.package_name) "crash"
      let report_id := (Generator.generate Ulid.nil env.now_ms env.rand).toString
      let report_path := withExtension (joinPath output_dir report_id) "toml"
      match fs.create_dir_all output_dir with
      | .error e =>
          some { ops := [.createDirAll output_dir]
                 written := []
                 stderr := fallbackStderr report_path e content }
      | .ok _ =>
        match fs.write report_path with
        | .error e =>
            some { ops := [.createDirAll output_dir, .writeFile report_path content]
                   written := []
                   stderr := fallbackStderr report_path e content }
        | .ok _ =>
            some { ops := [.createDirAll output_dir, .writeFile report_path content]
                   written := [(report_path, content)]
                   stderr := [successNotice report.package_name report_path
                                metadata.repository] }

/-- The process-wide panic-hook slot: either the runtime's default hook or
the hook installed by this facility (which captured the metadata). -/
inductive HookSlot where
  | default
  | lmk (metadata : Metadata)
deriving DecidableEq, Repr

/-- `init_crash_reporter(metadata)`.  `rust_backtrace` is the value of the
`RUST_BACKTRACE` environment variable when set
(`std::env::var("RUST_BACKTRACE").is_ok()` is `isSome` here); `prev` is the
hook slot before the call. -/
def init_crash_reporter (metadata : Metadata) (build : Build)
    (rust_backtrace : Option String) (prev : HookSlot) : HookSlot :=
  let is_release_mode := build.is_release_mode
  let backtrace_enabled := rust_backtrace.isSome
  if is_release_mode && !backtrace_enabled then HookSlot.lmk metadata else prev

/-- The ids issued by N sequential hook invocations: each fault creates a
fresh `ulid::Generator` and draws once from it, consuming that fault's
clock reading and random draw. -/
def handlerUlids (faults : List (Nat × Nat)) : List Ulid :=
  faults.map fun f => Generator.generate Ulid.nil f.1 f.2

/-- The same ids, rendered as the file-name strings. -/
def handlerReportIds (faults : List (Nat × Nat)) : List String :=
  (handlerUlids faults).map Ulid.toString

/-- The claim, as stated: across any 1000 or more sequential hook
generations, the report ids are pairwise distinct and lexicographically
non-decreasing in creation order. -/
def handlerIdsClaim : Prop :=
  ∀ faults : List (Nat × Nat), 1000 ≤ faults.length →
    (handlerReportIds faults).Pairwise (· ≠ ·) ∧
    (handlerReportIds faults).Chain' (fun a b => ¬ strLex b a)

/-- The ids issued by sequential draws from one `ulid::Generator` instance
(state threaded through: the generator remembers the last issued id). -/
def genRun (previous : Ulid) : List (Nat × Nat) → List Ulid
  | [] => []
  | f :: rest =>
      let u := Generator.generate previous f.1 f.2
      u :: genRun u rest

/-- Concrete host metadata used by the witnesses. -/
def mdW : Metadata := ⟨"lmk", "0.1.0", "https://github.com/msmoiz/lmk"⟩

/-- Concrete panic location used by the witnesses. -/
def locW : Location := ⟨"src/main.rs", 10, 5⟩

/-- A fault whose payload is the plain text "boom". -/
def panicW : PanicInfo := ⟨Payload.text "boom", some locW⟩

/-- A fault with an opaque (non-text) payload. -/
def panicW2 : PanicInfo := ⟨Payload.other, some locW⟩

/-- A release build on a fixed target. -/
def buildW : Build := ⟨"linux", true⟩

/-- A runtime environment where every best-effort lookup succeeds. -/
def envW : RunEnv :=
  ⟨"2026-10-12T00:00:00+00:00", ["lmk"], Except.ok "/home/u", "bt", "/tmp", 1, 7⟩

/-- A runtime environment where every best-effort lookup fails. -/
def envW2 : RunEnv :=
  ⟨"2026-10-12T01:00:00+00:00", [], Except.error "gone", "bt2", "/tmp", 2, 9⟩

/-- The report built in `envW` from `panicW`. -/
def reportW : Report :=
  { captured_at := "2026-10-12T00:00:00+00:00"
    package_name := "lmk"
    package_version := "0.1.0"
    binary_name := some "lmk"
    working_dir := some "/home/u"
    operating_system := "linux"
    panic_message := some "boom"
    panic_location := "src/main.rs:10:5"
    backtrace := "bt" }

/-- The report built in `envW2` from `panicW`. -/
def reportW2 : Report :=
  { captured_at := "2026-10-12T01:00:00+00:00"
    package_name := "lmk"
    package_version := "0.1.0"
    binary_name := none
    working_dir := none
    operating_system := "linux"
    panic_message := some "boom"
    panic_location := "src/main.rs:10:5"
    backtrace := "bt2" }

/-- A filesystem on which both directory creation and file write succeed. -/
def fsOkW : SysFs := ⟨fun _ => Except.ok (), fun _ => Except.ok ()⟩

/-- A filesystem on which directory creation fails. -/
def fsDirFailW : SysFs :=
  ⟨fun _ => Except.error "permission denied", fun _ => Except.ok ()⟩

/-- A filesystem on which directory creation succeeds but the file write
fails. -/
def fsWriteFailW : SysFs :=
  ⟨fun _ => Except.ok (), fun _ => Except.error "disk full"⟩

/-- The serialized form of `reportW`. -/
def contentW : String :=
  match toml_to_string_pretty reportW with
  | .ok s => s
  | .error _ => ""

/-- Whether a filesystem operation is a directory creation. -/
def FsOp.isCreateDir : FsOp → Bool
  | .createDirAll _ => true
  | .writeFile _ _ => false

/-- Whether a filesystem operation is a file write. -/
def FsOp.isWrite : FsOp → Bool
  | .createDirAll _ => false
  | .writeFile _ _ => true

/-- Evaluation of `Report::new` when the panic location is present: the
report is the record read off the metadata, the fault context and the
environment. -/
theorem report_new_some (metadata : Metadata) (panic : PanicInfo) (build : Build)
    (env : RunEnv) (loc : Location) (hloc : panic.location = some loc) :
    Report.new metadata panic build env = some
      { captured_at := env.now_rfc3339
        package_name := metadata.name
        package_version := metadata.version
        binary_name := env.args.head?
        working_dir := env.current_dir.toOption
        operating_system := build.os
        panic_message :=
          match panic.payload with
          | .text s => some s
          | .other => none
        panic_location := loc.render
        backtrace := env.backtrace } := by
  unfold Report.new
  rw [hloc]

/-- A successfully built report carries the metadata's name as its
package name. -/
theorem report_new_package_name (metadata : Metadata) (panic : PanicInfo)
    (build : Build) (env : RunEnv) (report : Report)
    (hrep : Report.new metadata panic build env = some report) :
    report.package_name = metadata.name := by
  cases hl : panic.location with
  | none =>
      unfold Report.new at hrep
      rw [hl] at hrep
      exact Option.noConfusion hrep
  | some loc =>
      rw [report_new_some metadata panic build env loc hl] at hrep
      simp only [Option.some.injEq] at hrep
      rw [← hrep]

/-- C10: for every call to `Report::new`, the `operating_system` field
equals the build's compile-time `std::env::consts::OS` constant; it is the
same in all reports produced by the same build and does not depend on the
runtime environment at the moment of the fault. -/
theorem report_operating_system_constant
    (md₁ md₂ : Metadata) (p₁ p₂ : PanicInfo) (build : Build)
    (env₁ env₂ : RunEnv) (r₁ r₂ : Report)
    (h₁ : Report.new md₁ p₁ build env₁ = some r₁)
    (h₂ : Report.new md₂ p₂ build env₂ = some r₂) :
    r₁.operating_system = build.os ∧ r₂.operating_system = build.os ∧
      r₁.operating_system = r₂.operating_system := by
  have f : ∀ (md : Metadata) (p : PanicInfo) (env : RunEnv) (r : Report),
      Report.new md p build env = some r → r.operating_system = build.os := by
    intro md p env r h
    cases hl : p.location with
    | none =>
        unfold Report.new at h
        rw [hl] at h
        exact Option.noConfusion h
    | some loc =>
        rw [report_new_some md p build env loc hl] at h
        simp only [Option.some.injEq] at h
        rw [← h]
  refine ⟨f md₁ p₁ env₁ r₁ h₁, f md₂ p₂ env₂ r₂ h₂, ?_⟩
  rw [f md₁ p₁ env₁ r₁ h₁, f md₂ p₂ env₂ r₂ h₂]

/-- Witness for C10 at concrete inputs. -/
theorem report_operating_system_constant_witness :
    reportW.operating_system = buildW.os ∧ reportW2.operating_system = buildW.os ∧
      reportW.operating_system = reportW2.operating_system :=
  report_operating_system_constant mdW mdW panicW panicW buildW envW envW2
    reportW reportW2 (by decide) (by decide)

/-- C5: `Report::new` never itself faults when the panic location is
present: it produces a report for every metadata, fault context and
environment, and each fallible sub-step (binary-name lookup, working-dir
lookup, panic-message extraction) resolves to an absent value rather than
propagating a failure. -/
theorem report_new_never_faults
    (metadata : Metadata) (panic : PanicInfo) (build : Build) (env : RunEnv)
    (loc : Location) (hloc : panic.location = some loc) :
    ∃ report, Report.new metadata panic build env = some report ∧
      (env.args = [] → report.binary_name = none) ∧
      (∀ e, env.current_dir = Except.error e → report.working_dir = none) ∧
      (panic.payload = Payload.other → report.panic_message = none) := by
  refine ⟨_, report_new_some metadata panic build env loc hloc, ?_, ?_, ?_⟩
  · intro h; simp [h]
  · intro e h; simp [h, Except.toOption]
  · intro h; simp [h]

/-- Witness for C5 at concrete inputs where all three sub-steps fail. -/
theorem report_new_never_faults_witness :
    ∃ report, Report.new mdW panicW2 buildW envW2 = some report ∧
      (envW2.args = [] → report.binary_name = none) ∧
      (∀ e, envW2.current_dir = Except.error e → report.working_dir = none) ∧
      (panicW2.payload = Payload.other → report.panic_message = none) :=
  report_new_never_faults mdW panicW2 buildW envW2 locW rfl

/-- C4: when the fault payload is the plain text `X`, the report's
`panic_message` is `Some(X)`; any other payload shape yields `None`. -/
theorem report_panic_message_matches_payload
    (metadata : Metadata) (panic : PanicInfo) (build : Build) (env : RunEnv)
    (loc : Location) (hloc : panic.location = some loc) :
    (∀ X, panic.payload = Payload.text X →
        (Report.new metadata panic build env).map Report.panic_message =
          some (some X)) ∧
    (panic.payload = Payload.other →
        (Report.new metadata panic build env).map Report.panic_message =
          some none) := by
  constructor
  · intro X hX
    rw [report_new_some metadata panic build env loc hloc]
    simp [hX]
  · intro h
    rw [report_new_some metadata panic build env loc hloc]
    simp [h]

/-- Witness for C4: a text payload and an opaque payload at concrete
inputs. -/
theorem report_panic_message_matches_payload_witness :
    (Report.new mdW panicW buildW envW).map Report.panic_message =
        some (some "boom") ∧
      (Report.new mdW panicW2 buildW envW).map Report.panic_message =
        some none :=
  ⟨(report_panic_message_matches_payload mdW panicW buildW envW locW rfl).1
      "boom" rfl,
   (report_panic_message_matches_payload mdW panicW2 buildW envW locW rfl).2 rfl⟩

/-- C9: every built report's `panic_location` is present and is exactly
`<file>:<line>:<column>` for the fault's reported source location. -/
theorem report_panic_location_shape
    (metadata : Metadata) (panic : PanicInfo) (build : Build) (env : RunEnv)
    (loc : Location) (hloc : panic.location = some loc) :
    (Report.new metadata panic build env).map Report.panic_location =
        some (loc.file ++ ":" ++ toString loc.line ++ ":" ++ toString loc.column) ∧
      (∀ report, Report.new metadata panic build env = some report →
        report.panic_location = Location.render loc) := by
  constructor
  · rw [report_new_some metadata panic build env loc hloc]
    simp [Location.render]
  · intro report hrep
    rw [report_new_some metadata panic build env loc hloc] at hrep
    simp only [Option.some.injEq] at hrep
    rw [← hrep]

/-- Witness for C9 at concrete inputs. -/
theorem report_panic_location_shape_witness :
    (Report.new mdW panicW buildW envW).map Report.panic_location =
        some ("src/main.rs" ++ ":" ++ toString 10 ++ ":" ++ toString 5) ∧
      (∀ report, Report.new mdW panicW buildW envW = some report →
        report.panic_location = Location.render locW) :=
  report_panic_location_shape mdW panicW buildW envW locW rfl

/-- C3: `init_crash_reporter` installs the fault handler if and only if the
build is a release build and `RUST_BACKTRACE` is not set; setting the
variable to any value, or a non-release build, makes the call a no-op that
leaves the previous hook slot in place. -/
theorem init_activation_policy (metadata : Metadata) (build : Build)
    (rust_backtrace : Option String) :
    (init_crash_reporter metadata build rust_backtrace HookSlot.default ≠
        HookSlot.default ↔
        build.is_release_mode = true ∧ rust_backtrace = none) ∧
    (build.is_release_mode = true ∧ rust_backtrace = none →
        init_crash_reporter metadata build rust_backtrace HookSlot.default =
          HookSlot.lmk metadata) ∧
    (∀ prev, ¬(build.is_release_mode = true ∧ rust_backtrace = none) →
        init_crash_reporter metadata build rust_backtrace prev = prev) := by
  obtain ⟨os, rel⟩ := build
  cases rel <;> cases rust_backtrace <;> simp [init_crash_reporter]

/-- Witness for C3: the hook is installed in a release build with the
variable unset, and the call is a no-op when the variable is set. -/
theorem init_activation_policy_witness :
    init_crash_reporter mdW buildW none HookSlot.default = HookSlot.lmk mdW ∧
      init_crash_reporter mdW buildW (some "1") HookSlot.default =
        HookSlot.default :=
  ⟨(init_activation_policy mdW buildW none).2.1 ⟨rfl, rfl⟩,
   (init_activation_policy mdW buildW (some "1")).2.2 HookSlot.default
      (by decide)⟩

/-- Evaluation of the hook when directory creation fails: single create
attempt, nothing written, fallback stderr. -/
theorem runHook_createFail
    (metadata : Metadata) (panic : PanicInfo) (build : Build) (env : RunEnv)
    (fs : SysFs) (report : Report) (content e : String)
    (hrep : Report.new metadata panic build env = some report)
    (hser : toml_to_string_pretty report = Except.ok content)
    (hfs : fs.create_dir_all (outputDir metadata.name env) = Except.error e) :
    runHook metadata panic build env fs = some
      { ops := [FsOp.createDirAll (outputDir metadata.name env)]
        written := []
        stderr := fallbackStderr (reportPath metadata.name env) e content } := by
  have hpkg := report_new_package_name metadata panic build env report hrep
  simp only [outputDir, reportPath, reportId, joinPath, withExtension] at hfs
  simp only [runHook, hrep, hser, hpkg, outputDir, reportPath, reportId,
    joinPath, withExtension]
  rw [hfs]

/-- Evaluation of the hook when directory creation succeeds but the file
write fails: both operations attempted once, nothing written, fallback
stderr. -/
theorem runHook_writeFail
    (metadata : Metadata) (panic : PanicInfo) (build : Build) (env : RunEnv)
    (fs : SysFs) (report : Report) (content e : String)
    (hrep : Report.new metadata panic build env = some report)
    (hser : toml_to_string_pretty report = Except.ok content)
    (hok : fs.create_dir_all (outputDir metadata.name env) = Except.ok ())
    (hw : fs.write (reportPath metadata.name env) = Except.error e) :
    runHook metadata panic build env fs = some
      { ops := [FsOp.createDirAll (outputDir metadata.name env),
                FsOp.writeFile (reportPath metadata.name env) content]
        written := []
        stderr := fallbackStderr (reportPath metadata.name env) e content } := by
  have hpkg := report_new_package_name metadata panic build env report hrep
  simp only [outputDir, reportPath, reportId, joinPath, withExtension] at hok hw
  simp only [runHook, hrep, hser, hpkg, outputDir, reportPath, reportId,
    joinPath, withExtension]
  rw [hok, hw]

/-- Evaluation of the hook when directory creation and file write both
succeed: the file is written and the success notice is the only stderr
output. -/
theorem runHook_ok
    (metadata : Metadata) (panic : PanicInfo) (build : Build) (env : RunEnv)
    (fs : SysFs) (report : Report) (content : String)
    (hrep : Report.new metadata panic build env = some report)
    (hser : toml_to_string_pretty report = Except.ok content)
    (hok : fs.create_dir_all (outputDir metadata.name env) = Except.ok ())
    (hw : fs.write (reportPath metadata.name env) = Except.ok ()) :
    runHook metadata panic build env fs = some
      { ops := [FsOp.createDirAll (outputDir metadata.name env),
                FsOp.writeFile (reportPath metadata.name env) content]
        written := [(reportPath metadata.name env, content)]
        stderr := [successNotice metadata.name (reportPath metadata.name env)
            metadata.repository] } := by
  have hpkg := report_new_package_name metadata panic build env report hrep
  simp only [outputDir, reportPath, reportId, joinPath, withExtension] at hok hw
  simp only [runHook, hrep, hser, hpkg, outputDir, reportPath, reportId,
    joinPath, withExtension]
  rw [hok, hw]

/-- C1: when persisting the report fails (at directory creation or at file
write), the hook prints to stderr, in order: the failed-report-path
message, the underlying failure detail, a separator, the
direct-output announcement, the full serialized content, and a closing
separator — and the stderr output of this branch is exactly the fallback
sequence, so the success-path notice is not printed. -/
theorem hook_fallback_output
    (metadata : Metadata) (panic : PanicInfo) (build : Build) (env : RunEnv)
    (fs : SysFs) (report : Report) (content e : String)
    (hrep : Report.new metadata panic build env = some report)
    (hser : toml_to_string_pretty report = Except.ok content)
    (hfail : fs.create_dir_all (outputDir metadata.name env) = Except.error e ∨
      (fs.create_dir_all (outputDir metadata.name env) = Except.ok () ∧
        fs.write (reportPath metadata.name env) = Except.error e)) :
    ∃ out, runHook metadata panic build env fs = some out ∧
      out.written = [] ∧
      out.stderr = fallbackStderr (reportPath metadata.name env) e content ∧
      (∃ g₁ g₂ g₃ g₄ g₅ g₆, streamText out.stderr =
        failSaveMsg (reportPath metadata.name env) ++ g₁ ++ e ++ g₂ ++ sepLine ++
          g₃ ++ directMsg ++ g₄ ++ content ++ g₅ ++ sepLine ++ g₆) ∧
      out.stderr ≠ [successNotice metadata.name (reportPath metadata.name env)
        metadata.repository] := by
  have hstream :
      streamText (fallbackStderr (reportPath metadata.name env) e content) =
        failSaveMsg (reportPath metadata.name env) ++ ("\n" ++ sepLine ++ "\n") ++
          e ++ "\n" ++ sepLine ++ "\n" ++ directMsg ++ ("\n" ++ sepLine ++ "\n") ++
          content ++ "\n" ++ sepLine ++ "\n" := by
    simp [streamText, fallbackStderr, String.append_assoc]
  have hne : fallbackStderr (reportPath metadata.name env) e content ≠
      [successNotice metadata.name (reportPath metadata.name env)
        metadata.repository] := by
    simp [fallbackStderr]
  rcases hfail with h | ⟨h1, h2⟩
  · exact ⟨_, runHook_createFail metadata panic build env fs report content e
        hrep hser h, rfl, rfl,
      ⟨"\n" ++ sepLine ++ "\n", "\n", "\n", "\n" ++ sepLine ++ "\n", "\n", "\n",
        hstream⟩, hne⟩
  · exact ⟨_, runHook_writeFail metadata panic build env fs report content e
        hrep hser h1 h2, rfl, rfl,
      ⟨"\n" ++ sepLine ++ "\n", "\n", "\n", "\n" ++ sepLine ++ "\n", "\n", "\n",
        hstream⟩, hne⟩

/-- Witness for C1: a concrete fault on a filesystem whose write fails. -/
theorem hook_fallback_output_witness :
    ∃ out, runHook mdW panicW buildW envW fsWriteFailW = some out ∧
      out.written = [] ∧
      out.stderr = fallbackStderr (reportPath mdW.name envW) "disk full" contentW ∧
      (∃ g₁ g₂ g₃ g₄ g₅ g₆, streamText out.stderr =
        failSaveMsg (reportPath mdW.name envW) ++ g₁ ++ "disk full" ++ g₂ ++
          sepLine ++ g₃ ++ directMsg ++ g₄ ++ contentW ++ g₅ ++ sepLine ++ g₆) ∧
      out.stderr ≠ [successNotice mdW.name (reportPath mdW.name envW)
        mdW.repository] :=
  hook_fallback_output mdW panicW buildW envW fsWriteFailW reportW contentW
    "disk full" (by decide) rfl (Or.inr ⟨rfl, rfl⟩)

/-- C2: when the output directory is creatable and the file writable, the
serialized report is written to exactly
`<temp-dir>/<package-name>/crash/<id>.toml`, and the only stderr output is
a success notice containing the application name, that path, and the
repository URL with the issue-filing suggestion. -/
theorem hook_success_output
    (metadata : Metadata) (panic : PanicInfo) (build : Build) (env : RunEnv)
    (fs : SysFs) (report : Report) (content : String)
    (hrep : Report.new metadata panic build env = some report)
    (hser : toml_to_string_pretty report = Except.ok content)
    (hdir : fs.create_dir_all (outputDir metadata.name env) = Except.ok ())
    (hwrite : fs.write (reportPath metadata.name env) = Except.ok ()) :
    runHook metadata panic build env fs = some
      { ops := [FsOp.createDirAll (outputDir metadata.name env),
                FsOp.writeFile (reportPath metadata.name env) content]
        written := [(reportPath metadata.name env, content)]
        stderr := [successNotice metadata.name (reportPath metadata.name env)
            metadata.repository] } ∧
    reportPath metadata.name env =
      env.temp_dir ++ "/" ++ metadata.name ++ "/" ++ "crash" ++ "/" ++
        reportId env ++ "." ++ "toml" ∧
    (∃ s₁ s₂ s₃ s₄,
      successNotice metadata.name (reportPath metadata.name env)
          metadata.repository =
        metadata.name ++ s₁ ++ reportPath metadata.name env ++ s₂ ++
          metadata.repository ++ s₃ ∧
      s₃ = "/issues" ++ s₄) := by
  refine ⟨runHook_ok metadata panic build env fs report content hrep hser hdir
    hwrite, ?_, ?_⟩
  · simp [reportPath, outputDir, reportId, joinPath, withExtension,
      String.append_assoc]
  · refine ⟨" has crashed!\n\nA crash report has been saved to ",
      ". To get support for this problem,\nplease raise an issue on GitHub at ",
      "/issues and include the crash\nreport to help us better diagnose the problem.",
      " and include the crash\nreport to help us better diagnose the problem.",
      ?_, rfl⟩
    simp [successNotice, String.append_assoc]

/-- Witness for C2: a concrete fault on a fully-working filesystem; the
computed report path evaluates to the literal
`/tmp/lmk/crash/00000000010000000000000007.toml`. -/
theorem hook_success_output_witness :
    (runHook mdW panicW buildW envW fsOkW = some
        { ops := [FsOp.createDirAll (outputDir mdW.name envW),
                  FsOp.writeFile (reportPath mdW.name envW) contentW]
          written := [(reportPath mdW.name envW, contentW)]
          stderr := [successNotice mdW.name (reportPath mdW.name envW)
              mdW.repository] } ∧
      reportPath mdW.name envW =
        envW.temp_dir ++ "/" ++ mdW.name ++ "/" ++ "crash" ++ "/" ++
          reportId envW ++ "." ++ "toml" ∧
      (∃ s₁ s₂ s₃ s₄,
        successNotice mdW.name (reportPath mdW.name envW) mdW.repository =
          mdW.name ++ s₁ ++ reportPath mdW.name envW ++ s₂ ++
            mdW.repository ++ s₃ ∧
        s₃ = "/issues" ++ s₄)) ∧
    reportPath mdW.name envW = "/tmp/lmk/crash/00000000010000000000000007.toml" :=
  ⟨hook_success_output mdW panicW buildW envW fsOkW reportW contentW
      (by decide) rfl rfl rfl,
   by decide⟩

/-- C6: if creation of the output directory fails, the file write is not
attempted and no file is created; the persistence attempt happens exactly
once (one directory-creation attempt, no write attempt, no retry) and the
hook falls through directly to the stderr fallback. -/
theorem hook_dir_failure_no_write
    (metadata : Metadata) (panic : PanicInfo) (build : Build) (env : RunEnv)
    (fs : SysFs) (report : Report) (content e : String)
    (hrep : Report.new metadata panic build env = some report)
    (hser : toml_to_string_pretty report = Except.ok content)
    (hdirfail : fs.create_dir_all (outputDir metadata.name env) =
      Except.error e) :
    ∃ out, runHook metadata panic build env fs = some out ∧
      out.ops = [FsOp.createDirAll (outputDir metadata.name env)] ∧
      (∀ p c, FsOp.writeFile p c ∉ out.ops) ∧
      out.ops.countP FsOp.isCreateDir = 1 ∧
      out.written = [] ∧
      out.stderr = fallbackStderr (reportPath metadata.name env) e content := by
  refine ⟨_, runHook_createFail metadata panic build env fs report content e
    hrep hser hdirfail, rfl, ?_, ?_, rfl, rfl⟩
  · intro p c
    simp
  · simp [List.countP_cons, FsOp.isCreateDir]

/-- Witness for C6: a concrete fault on a filesystem whose directory
creation fails. -/
theorem hook_dir_failure_no_write_witness :
    ∃ out, runHook mdW panicW buildW envW fsDirFailW = some out ∧
      out.ops = [FsOp.createDirAll (outputDir mdW.name envW)] ∧
      (∀ p c, FsOp.writeFile p c ∉ out.ops) ∧
      out.ops.countP FsOp.isCreateDir = 1 ∧
      out.written = [] ∧
      out.stderr = fallbackStderr (reportPath mdW.name envW) "permission denied"
        contentW :=
  hook_dir_failure_no_write mdW panicW buildW envW fsDirFailW reportW contentW
    "permission denied" (by decide) rfl rfl

/-- C8: serializing a report never fails, for every report and hence for
every combination of present and absent optional fields; consequently the
hook's serialization-failure branch is unreachable and the hook itself
never faults once a panic location is present. -/
theorem serialize_never_fails :
    (∀ r : Report, ∃ s, toml_to_string_pretty r = Except.ok s) ∧
    (∀ (metadata : Metadata) (panic : PanicInfo) (build : Build) (env : RunEnv)
        (fs : SysFs) (loc : Location), panic.location = some loc →
      (runHook metadata panic build env fs).isSome = true) := by
  constructor
  · intro r
    exact ⟨_, rfl⟩
  · intro metadata panic build env fs loc hloc
    have hrep := report_new_some metadata panic build env loc hloc
    cases hc : fs.create_dir_all (outputDir metadata.name env) with
    | error e =>
        rw [runHook_createFail metadata panic build env fs _ _ e hrep rfl hc]
        rfl
    | ok u =>
        cases u
        cases hw : fs.write (reportPath metadata.name env) with
        | error e =>
            rw [runHook_writeFail metadata panic build env fs _ _ e hrep rfl
              hc hw]
            rfl
        | ok v =>
            cases v
            rw [runHook_ok metadata panic build env fs _ _ hrep rfl hc hw]
            rfl

/-- Witness for C8's hook-totality part at a concrete input. -/
theorem serialize_never_fails_witness :
    (runHook mdW panicW buildW envW fsOkW).isSome = true :=
  serialize_never_fails.2 mdW panicW buildW envW fsOkW locW rfl

/-- A generator always issues an id strictly above its previous one. -/
theorem generate_lt (g : Ulid) (now rand : Nat) :
    Ulid.lt g (Generator.generate g now rand) := by
  unfold Generator.generate
  split
  · exact Or.inl (by assumption)
  · exact Or.inr ⟨rfl, Nat.lt_succ_self _⟩

/-- A strictly smaller id is a different id. -/
theorem Ulid.lt_ne {a b : Ulid} (h : Ulid.lt a b) : a ≠ b := by
  intro heq
  subst heq
  unfold Ulid.lt at h
  omega

/-- The ids of a single generator run sit strictly above the initial
previous id, link by link. -/
theorem genRun_chain (g : Ulid) (faults : List (Nat × Nat)) :
    List.Chain Ulid.lt g (genRun g faults) := by
  induction faults generalizing g with
  | nil => exact List.Chain.nil
  | cons f rest ih =>
      exact List.Chain.cons (generate_lt g f.1 f.2) (ih _)

/-- The ids of a single generator run are strictly increasing. -/
theorem genRun_chain' (g : Ulid) (faults : List (Nat × Nat)) :
    (genRun g faults).Chain' Ulid.lt := by
  cases faults with
  | nil => exact trivial
  | cons f rest => exact genRun_chain (Generator.generate g f.1 f.2) rest

/-- The ids of a single generator run are pairwise distinct. -/
theorem genRun_pairwise_ne (g : Ulid) (faults : List (Nat × Nat)) :
    (genRun g faults).Pairwise (· ≠ ·) :=
  (List.chain'_iff_pairwise.mp (genRun_chain' g faults)).imp
    fun hab => Ulid.lt_ne hab

/-- Two fresh-generator draws at strictly increasing clock readings give
strictly increasing ids. -/
theorem handler_generate_lt {n₁ n₂ : Nat} (r₁ r₂ : Nat) (h : n₁ < n₂) :
    Ulid.lt (Generator.generate Ulid.nil n₁ r₁)
      (Generator.generate Ulid.nil n₂ r₂) := by
  have hg₂ : Generator.generate Ulid.nil n₂ r₂ = ⟨n₂, r₂⟩ := by
    unfold Generator.generate Ulid.nil
    rw [if_pos]
    exact Nat.lt_of_le_of_lt (Nat.zero_le n₁) h
  rw [hg₂]
  by_cases h₁ : 0 < n₁
  · have hg₁ : Generator.generate Ulid.nil n₁ r₁ = ⟨n₁, r₁⟩ := by
      unfold Generator.generate Ulid.nil
      rw [if_pos h₁]
    rw [hg₁]
    exact Or.inl h
  · have hg₁ : Generator.generate Ulid.nil n₁ r₁ = ⟨0, 1⟩ := by
      unfold Generator.generate Ulid.nil
      rw [if_neg h₁]
    rw [hg₁]
    exact Or.inl (Nat.lt_of_le_of_lt (Nat.zero_le n₁) h)

/-- Fresh-generator hook ids are strictly increasing whenever the fault
timestamps strictly increase. -/
theorem handlerUlids_chain' (faults : List (Nat × Nat))
    (hmono : (faults.map Prod.fst).Chain' (· < ·)) :
    (handlerUlids faults).Chain' Ulid.lt := by
  unfold handlerUlids
  rw [List.chain'_map]
  rw [List.chain'_map] at hmono
  exact hmono.imp fun a b hab => handler_generate_lt a.2 b.2 hab

/-- A fixed-width rendering has exactly its width in digits. -/
theorem encodeFW_length (w : Nat) : ∀ n, (encodeFW w n).length = w := by
  induction w with
  | zero => intro n; rfl
  | succ w ih => intro n; simp [encodeFW, ih]

/-- The Crockford alphabet is strictly increasing. -/
theorem crockfordChar_mono :
    ∀ m, m < 32 → ∀ n, n < 32 → m < n → crockfordChar m < crockfordChar n := by
  decide

/-- Fixed-width base32 rendering is strictly monotone below its capacity. -/
theorem lexLtB_encodeFW {w : Nat} : ∀ {a b : Nat}, a < b → b < 32 ^ w →
    lexLtB (encodeFW w a) (encodeFW w b) = true := by
  induction w with
  | zero =>
      intro a b hab hb
      exact absurd hab (by simp at hb; omega)
  | succ w ih =>
      intro a b hab hb
      have hpow : 0 < 32 ^ w := pow_pos (by norm_num) w
      have hb₂ : b < 32 * 32 ^ w := by
        rw [pow_succ] at hb
        omega
      have hbq : b / 32 ^ w < 32 := (Nat.div_lt_iff_lt_mul hpow).mpr hb₂
      by_cases hq : a / 32 ^ w < b / 32 ^ w
      · have haq : a / 32 ^ w < 32 :=
          Nat.lt_of_le_of_lt (Nat.div_le_div_right (Nat.le_of_lt hab)) hbq
        simp only [encodeFW, lexLtB]
        rw [if_pos (crockfordChar_mono _ haq _ hbq hq)]
      · have hq' : a / 32 ^ w = b / 32 ^ w :=
          Nat.le_antisymm (Nat.div_le_div_right (Nat.le_of_lt hab))
            (Nat.not_lt.mp hq)
        have h₁ := Nat.div_add_mod a (32 ^ w)
        have h₂ := Nat.div_add_mod b (32 ^ w)
        rw [← hq'] at h₂
        have hr : a % 32 ^ w < b % 32 ^ w := by omega
        have hbr : b % 32 ^ w < 32 ^ w := Nat.mod_lt _ hpow
        simp only [encodeFW, lexLtB, hq']
        rw [if_neg (lt_irrefl _), if_neg (lt_irrefl _)]
        exact ih hr hbr

/-- A strict prefix comparison survives appending suffixes, when the
compared prefixes have equal length. -/
theorem lexLtB_append_of_lt : ∀ {x₁ x₂ : List Char},
    x₁.length = x₂.length → lexLtB x₁ x₂ = true → ∀ y₁ y₂ : List Char,
    lexLtB (x₁ ++ y₁) (x₂ ++ y₂) = true := by
  intro x₁
  induction x₁ with
  | nil =>
      intro x₂ hlen h y₁ y₂
      cases x₂ with
      | nil => simp [lexLtB] at h
      | cons b bs => simp at hlen
  | cons a as ih =>
      intro x₂ hlen h y₁ y₂
      cases x₂ with
      | nil => simp at hlen
      | cons b bs =>
          simp only [List.cons_append, lexLtB] at h ⊢
          by_cases hab : a < b
          · rw [if_pos hab]
          · rw [if_neg hab] at h ⊢
            by_cases hba : b < a
            · rw [if_pos hba] at h
              exact absurd h (by simp)
            · rw [if_neg hba] at h ⊢
              exact ih (by simpa using hlen) h y₁ y₂

/-- Comparison after a common prefix is comparison of the suffixes. -/
theorem lexLtB_append_same (x y₁ y₂ : List Char) :
    lexLtB (x ++ y₁) (x ++ y₂) = lexLtB y₁ y₂ := by
  induction x with
  | nil => rfl
  | cons a as ih =>
      simp only [List.cons_append, lexLtB]
      rw [if_neg (lt_irrefl a), if_neg (lt_irrefl a)]
      exact ih

/-- The comparison is irreflexive. -/
theorem lexLtB_irrefl (l : List Char) : lexLtB l l = false := by
  induction l with
  | nil => rfl
  | cons a as ih =>
      simp only [lexLtB]
      rw [if_neg (lt_irrefl a), if_neg (lt_irrefl a), ih]

/-- Lexicographically smaller strings are different strings. -/
theorem strLex_ne {s t : String} (h : strLex s t) : s ≠ t := by
  intro heq
  subst heq
  unfold strLex at h
  rw [lexLtB_irrefl] at h
  exact Bool.noConfusion h

/-- Within the 48-bit/80-bit capacity, the ulid text rendering is strictly
monotone: a strictly smaller id has a lexicographically smaller string. -/
theorem ulid_toString_strLex {u v : Ulid} (hu₁ : u.timestamp < 2 ^ 48)
    (hv₁ : v.timestamp < 2 ^ 48) (hu₂ : u.random < 2 ^ 80)
    (hv₂ : v.random < 2 ^ 80) (h : Ulid.lt u v) :
    strLex u.toString v.toString := by
  unfold Ulid.lt at h
  show lexLtB (encodeFW 10 (u.timestamp % 2 ^ 48) ++ encodeFW 16 (u.random % 2 ^ 80))
    (encodeFW 10 (v.timestamp % 2 ^ 48) ++ encodeFW 16 (v.random % 2 ^ 80)) = true
  rw [Nat.mod_eq_of_lt hu₁, Nat.mod_eq_of_lt hv₁, Nat.mod_eq_of_lt hu₂,
    Nat.mod_eq_of_lt hv₂]
  rcases h with hts | ⟨hts, hr⟩
  · have hlt : lexLtB (encodeFW 10 u.timestamp) (encodeFW 10 v.timestamp) = true := by
      apply lexLtB_encodeFW hts
      calc v.timestamp < 2 ^ 48 := hv₁
      _ ≤ 32 ^ 10 := by norm_num
    exact lexLtB_append_of_lt (by rw [encodeFW_length, encodeFW_length]) hlt _ _
  · rw [hts, lexLtB_append_same]
    apply lexLtB_encodeFW hr
    calc v.random < 2 ^ 80 := hv₂
    _ ≤ 32 ^ 16 := by norm_num

/-- Transport of a chain along an implication that may use membership. -/
theorem chain'_imp_of_mem {α : Type} {R S : α → α → Prop} {l : List α}
    (h : ∀ a ∈ l, ∀ b ∈ l, R a b → S a b) (hc : l.Chain' R) : l.Chain' S := by
  induction l with
  | nil => exact trivial
  | cons x rest ih =>
      rw [List.chain'_cons'] at hc ⊢
      refine ⟨?_, ih (fun a ha b hb hr =>
        h a (List.mem_cons_of_mem x ha) b (List.mem_cons_of_mem x hb) hr) hc.2⟩
      intro y hy
      exact h x (List.mem_cons_self x rest) y
        (List.mem_cons_of_mem x (List.mem_of_mem_head? hy)) (hc.1 y hy)

/-- Transport of pairwiseness along an implication that may use
membership. -/
theorem pairwise_imp_of_mem {α : Type} {R S : α → α → Prop} {l : List α}
    (h : ∀ a ∈ l, ∀ b ∈ l, R a b → S a b) (hp : l.Pairwise R) :
    l.Pairwise S := by
  induction l with
  | nil => exact List.Pairwise.nil
  | cons x rest ih =>
      rw [List.pairwise_cons] at hp ⊢
      exact ⟨fun b hb => h x (List.mem_cons_self x rest) b
          (List.mem_cons_of_mem x hb) (hp.1 b hb),
        ih (fun a ha b hb hr =>
          h a (List.mem_cons_of_mem x ha) b (List.mem_cons_of_mem x hb) hr)
          hp.2⟩

/-- A fresh-generator draw from bounded inputs is a bounded id. -/
theorem handler_generate_bounded {n r : Nat} (h₁ : n < 2 ^ 48)
    (h₂ : r < 2 ^ 80) :
    (Generator.generate Ulid.nil n r).timestamp < 2 ^ 48 ∧
      (Generator.generate Ulid.nil n r).random < 2 ^ 80 := by
  unfold Generator.generate Ulid.nil
  split
  · exact ⟨h₁, h₂⟩
  · refine ⟨?_, ?_⟩ <;> norm_num

/-- Every id in a fresh-generator run over bounded inputs is bounded. -/
theorem handlerUlids_bounded (faults : List (Nat × Nat))
    (hbound : ∀ f ∈ faults, f.1 < 2 ^ 48 ∧ f.2 < 2 ^ 80) :
    ∀ u ∈ handlerUlids faults, u.timestamp < 2 ^ 48 ∧ u.random < 2 ^ 80 := by
  intro u hu
  unfold handlerUlids at hu
  obtain ⟨f, hf, hfu⟩ := List.mem_map.mp hu
  exact hfu ▸ handler_generate_bounded (hbound f hf).1 (hbound f hf).2

/-- C7 (counterexample): the claim as stated is false.  The hook creates a
fresh `ulid::Generator` per fault, so two faults in the same millisecond
draw independent random components; with draws 1 then 0 the second id
string is lexicographically smaller than the first, refuting
non-decreasingness over a 1000-generation sequence. -/
theorem handler_ids_claim_false : ¬ handlerIdsClaim := by
  intro h
  obtain ⟨hpw, hch⟩ := h ((1, 1) :: (1, 0) :: List.replicate 998 (2, 0)) (by
    simp only [List.length_cons, List.length_replicate]
    omega)
  rw [handlerReportIds, handlerUlids] at hch
  simp only [List.map_cons] at hch
  exact (List.chain'_cons.mp hch).1 (by decide)

/-- C7 (amended): ids drawn sequentially from a single `ulid::Generator`
instance are strictly increasing and pairwise distinct; and the hook's
fresh-generator ids are pairwise distinct with lexicographically strictly
increasing id strings provided the fault timestamps strictly increase
(faults in distinct milliseconds) and timestamps/randomness stay within
the 48-bit/80-bit ulid capacity. -/
theorem handler_ids_amended (faults : List (Nat × Nat)) (g : Ulid)
    (hbound : ∀ f ∈ faults, f.1 < 2 ^ 48 ∧ f.2 < 2 ^ 80)
    (hmono : (faults.map Prod.fst).Chain' (· < ·)) :
    (handlerReportIds faults).Chain' strLex ∧
    (handlerReportIds faults).Pairwise (· ≠ ·) ∧
    (genRun g faults).Chain' Ulid.lt ∧
    (genRun g faults).Pairwise (· ≠ ·) := by
  have hchain : (handlerUlids faults).Chain' Ulid.lt :=
    handlerUlids_chain' faults hmono
  have hb := handlerUlids_bounded faults hbound
  have himp : ∀ u ∈ handlerUlids faults, ∀ v ∈ handlerUlids faults,
      Ulid.lt u v → strLex u.toString v.toString := fun u hu v hv hr =>
    ulid_toString_strLex (hb u hu).1 (hb v hv).1 (hb u hu).2 (hb v hv).2 hr
  refine ⟨?_, ?_, genRun_chain' g faults, genRun_pairwise_ne g faults⟩
  · rw [handlerReportIds, List.chain'_map]
    exact chain'_imp_of_mem himp hchain
  · rw [handlerReportIds, List.pairwise_map]
    exact (pairwise_imp_of_mem himp
      (List.chain'_iff_pairwise.mp hchain)).imp fun hr => strLex_ne hr

/-- Witness for the amended C7 at three concrete faults in distinct
milliseconds. -/
theorem handler_ids_amended_witness :
    (handlerReportIds [(1, 5), (2, 3), (3, 0)]).Chain' strLex ∧
    (handlerReportIds [(1, 5), (2, 3), (3, 0)]).Pairwise (· ≠ ·) ∧
    (genRun Ulid.nil [(1, 5), (2, 3), (3, 0)]).Chain' Ulid.lt ∧
    (genRun Ulid.nil [(1, 5), (2, 3), (3, 0)]).Pairwise (· ≠ ·) :=
  handler_ids_amended [(1, 5), (2, 3), (3, 0)] Ulid.nil (by decide) (by simp)
